import Mathlib

/-!
Verification of the shared-state merge, market-data fetch fallback, and
scoring pipeline of the ai-hedge-fund repository.

The Python sources are shallowly embedded:
  - Python `dict[str, V]` values become insertion-ordered association lists
    (`Dict V`), and `{**a, **b}` becomes `merge_dicts` below, which keeps
    `a`'s keys in order (updated with `b`'s values where `b` has the key)
    and appends `b`'s new keys in `b`'s order, exactly as CPython does.
  - Fallible code returns `Except String`; printed diagnostics are returned
    alongside results as a `List String`.
  - Python floats are modelled as `Rat` (all arithmetic in scope is exact
    small-integer ratio arithmetic).
-/

namespace HedgeFund

/-- A Python `dict[str, V]`: insertion-ordered key/value pairs.  A dict
built by Python literals has no duplicate keys, but none of the lemmas
below need that assumption. -/
abbrev Dict (V : Type) := List (String × V)

/-- `d.get(k)` / `d[k]` lookup: first entry with the key (for genuine
Python dicts keys are unique, so the first is the only one). -/
def getVal {V : Type} : Dict V → String → Option V
  | [], _ => none
  | (k, v) :: rest, key => if k = key then some v else getVal rest key

/-- `k in d`. -/
def hasKey {V : Type} (d : Dict V) (k : String) : Bool :=
  (getVal d k).isSome

/-- One entry of `a` as it appears in `{**a, **b}`: the same key, with
`b`'s value if `b` has the key. -/
def updEntry {V : Type} (b : Dict V) (p : String × V) : String × V :=
  match getVal b p.1 with
  | some v => (p.1, v)
  | none => p

/-- `src/agents/state.py` lines 10-11: `merge_dicts(a, b) = {**a, **b}`.
CPython semantics of `{**a, **b}`: the keys of `a` in their order, each
taking `b`'s value when `b` also has the key, followed by the keys of `b`
not in `a`, in `b`'s order. -/
def merge_dicts {V : Type} (a b : Dict V) : Dict V :=
  a.map (updEntry b) ++ b.filter (fun p => !(hasKey a p.1))

/-- A pipeline message (`langchain` `HumanMessage`): the fields the
pipeline sets — a producing agent name and a JSON content string. -/
structure Message where
  name : String
  content : String
deriving DecidableEq

/-- `src/agents/state.py` line 15: the `messages` channel is merged with
`operator.add`, i.e. sequence concatenation. -/
def mergeMessages (a b : List Message) : List Message :=
  a ++ b

/-- One normalized price bar (`get_prices_yf` / the `prices` payload of
`get_prices_fd`). -/
structure PriceRec where
  time : String
  open_ : Rat
  high : Rat
  low : Rat
  close : Rat
  volume : Rat
deriving DecidableEq

/-- A financial-metrics record: a mapping of metric names to numbers. -/
abbrev MetricsRec := Dict Rat

/-- A line-item search result: a mapping of line-item names to numbers. -/
abbrev ItemRec := Dict Rat

/-- One insider trade as the sentiment stage sees it: a dict whose
`transaction_shares` entry may be missing or `None` (both `none` here). -/
structure TradeRec where
  transaction_shares : Option Rat
  transaction_date : Option String
  insider_name : Option String
  transaction_type : Option String
deriving DecidableEq

/-- A trading-stance signal. -/
inductive Signal where
  | bullish : Signal
  | bearish : Signal
  | neutral : Signal
deriving DecidableEq

/-- `src/agents/fundamentals.py` lines 217-230: majority vote between
bullish and bearish (ties give neutral), confidence is the larger count
over the total number of sub-signals. -/
def fundamentalsOverall (signals : List Signal) : Signal × Rat :=
  let bullish_signals := signals.count Signal.bullish
  let bearish_signals := signals.count Signal.bearish
  let overall_signal :=
    if bullish_signals > bearish_signals then Signal.bullish
    else if bearish_signals > bullish_signals then Signal.bearish
    else Signal.neutral
  let total_signals := signals.length
  let confidence : Rat := ((max bullish_signals bearish_signals : Nat) : Rat) / (total_signals : Rat)
  (overall_signal, confidence)

/-- `src/agents/sentiment.py` lines 76-96: the same combination, except
that an empty signal list short-circuits to neutral with confidence 0.5,
and the division carries a (redundant) positive-total guard. -/
def sentimentOverall (signals : List Signal) : Signal × Rat :=
  if signals.isEmpty then
    (Signal.neutral, 1/2)
  else
    let bullish_signals := signals.count Signal.bullish
    let bearish_signals := signals.count Signal.bearish
    let total_signals := signals.length
    let overall_signal :=
      if bullish_signals > bearish_signals then Signal.bullish
      else if bearish_signals > bullish_signals then Signal.bearish
      else Signal.neutral
    let confidence : Rat :=
      if total_signals > 0 then ((max bullish_signals bearish_signals : Nat) : Rat) / (total_signals : Rat)
      else 1/2
    (overall_signal, confidence)

/-- `src/agents/sentiment.py` lines 66-73: one trade's sub-signal.
`trade.get("transaction_shares")` is `none` when the key is missing or
holds `None`; the Python truthiness test `if transaction_shares:` also
skips an exact 0; negative shares are bearish, the rest bullish. -/
def tradeSignal (trade : TradeRec) : Option Signal :=
  match trade.transaction_shares with
  | none => none
  | some q =>
    if q = 0 then none
    else if q < 0 then some Signal.bearish
    else some Signal.bullish

/-- The signal list the sentiment loop collects, in trade order. -/
def sentimentSignals (insider_trades : List TradeRec) : List Signal :=
  insider_trades.filterMap tradeSignal

/-- The sentiment stage's overall signal and confidence for a list of
insider trades (`src/agents/sentiment.py` lines 56-96). -/
def sentiment_agent_signal (insider_trades : List TradeRec) : Signal × Rat :=
  sentimentOverall (sentimentSignals insider_trades)

/-- The diagnostic `src/tools/api.py` prints before every fallback. -/
def fdFallbackDiag (e : String) : String :=
  "Financial Datasets API error: " ++ e ++ ". Falling back to Yahoo Finance..."

/-- `src/tools/api.py` lines 52-67 (`get_prices`): try the selected
source's adapter; if it fails and the selected source was
"financialdatasets", print one diagnostic and retry the yahoo adapter
once; otherwise re-raise.  The adapters are abstracted by their outcomes
`yf`/`fd`; the returned list holds the printed diagnostics. -/
def get_prices (yf fd : Except String (List PriceRec)) (data_source : String) :
    List String × Except String (List PriceRec) :=
  match (if data_source = "yahoo" then yf else fd) with
  | Except.ok v => ([], Except.ok v)
  | Except.error e =>
    if data_source = "financialdatasets" then ([fdFallbackDiag e], yf)
    else ([], Except.error e)

/-- `src/tools/api.py` lines 120-136 (`get_financial_metrics`): same
fallback shape as `get_prices`. -/
def get_financial_metrics (yf fd : Except String (List MetricsRec)) (data_source : String) :
    List String × Except String (List MetricsRec) :=
  match (if data_source = "yahoo" then yf else fd) with
  | Except.ok v => ([], Except.ok v)
  | Except.error e =>
    if data_source = "financialdatasets" then ([fdFallbackDiag e], yf)
    else ([], Except.error e)

/-- `src/tools/api.py` lines 183-198 (`get_insider_trades`): same
fallback on the secondary source, but a failure on any other source is
swallowed into an empty list (`return []`) instead of re-raised. -/
def get_insider_trades (yf fd : Except String (List TradeRec)) (data_source : String) :
    List String × Except String (List TradeRec) :=
  match (if data_source = "yahoo" then yf else fd) with
  | Except.ok v => ([], Except.ok v)
  | Except.error e =>
    if data_source = "financialdatasets" then ([fdFallbackDiag e], yf)
    else ([], Except.ok [])

/-- `src/tools/api.py` lines 220-233 (`get_market_cap`): same fallback
shape as `get_prices`. -/
def get_market_cap (yf fd : Except String Rat) (data_source : String) :
    List String × Except String Rat :=
  match (if data_source = "yahoo" then yf else fd) with
  | Except.ok v => ([], Except.ok v)
  | Except.error e =>
    if data_source = "financialdatasets" then ([fdFallbackDiag e], yf)
    else ([], Except.error e)

/-- `src/tools/api.py` lines 287-303 (`search_line_items`): same fallback
on the secondary source, but a failure on any other source returns the
default `[{"free_cash_flow": 0}]` instead of re-raising. -/
def search_line_items (yf fd : Except String (List ItemRec)) (data_source : String) :
    List String × Except String (List ItemRec) :=
  match (if data_source = "yahoo" then yf else fd) with
  | Except.ok v => ([], Except.ok v)
  | Except.error e =>
    if data_source = "financialdatasets" then ([fdFallbackDiag e], yf)
    else ([], Except.ok [[("free_cash_flow", 0)]])

/-- An HTTP response to the Financial Datasets prices endpoint: a status
code, the response text, and the optional `prices` field of the JSON
body (`none` when the key is absent). -/
structure PricesResp where
  status : Nat
  text : String
  prices : Option (List PriceRec)

/-- `src/tools/api.py` lines 31-50 (`get_prices_fd`): non-200 status
raises; otherwise `data.get("prices", [])` is returned — an absent or
empty payload comes back as a successful empty list. -/
def get_prices_fd (response : PricesResp) : Except String (List PriceRec) :=
  if response.status ≠ 200 then
    Except.error ("Error fetching data: " ++ toString response.status ++ " - " ++ response.text)
  else
    Except.ok (response.prices.getD [])

/-- The `company_facts` object of the Financial Datasets facts endpoint:
its `market_cap` field may be absent. -/
structure CompanyFacts where
  market_cap : Option Rat
deriving DecidableEq

/-- An HTTP response to the Financial Datasets company-facts endpoint. -/
structure FactsResp where
  status : Nat
  text : String
  company_facts : Option CompanyFacts

/-- `src/tools/api.py` lines 208-218 (`get_market_cap_fd`): non-200
status raises; otherwise `data.get('company_facts', {}).get('market_cap', 0)`
— an absent payload comes back as a successful 0. -/
def get_market_cap_fd (response : FactsResp) : Except String Rat :=
  if response.status ≠ 200 then
    Except.error ("Error fetching data: " ++ toString response.status ++ " - " ++ response.text)
  else
    Except.ok (((response.company_facts.getD ⟨none⟩).market_cap).getD 0)

/-- One raw Yahoo insider-transactions row, before normalization. -/
structure RawYfTrade where
  shares : Option Rat
  date : String
  insider : Option String
  ttype : Option String

/-- `src/tools/api.py` lines 138-162 (`get_insider_trades_yf`): a `None`
or empty upstream table returns `[]`; otherwise the first `limit` rows
are normalized (`trade.get("Shares", 0)` etc.). -/
def get_insider_trades_yf (insider_transactions : Option (List RawYfTrade)) (limit : Nat) :
    List TradeRec :=
  match insider_transactions with
  | none => []
  | some rows =>
    if rows.isEmpty then []
    else (rows.take limit).map (fun t =>
      { transaction_shares := some (t.shares.getD 0)
        transaction_date := some t.date
        insider_name := some (t.insider.getD (""))
        transaction_type := some (t.ttype.getD ("")) })

/-- A calendar date, as `datetime.date` components. -/
structure Date where
  year : Nat
  month : Nat
  day : Nat
deriving DecidableEq

def isLeapYear (y : Nat) : Bool :=
  y % 4 == 0 && (y % 100 != 0 || y % 400 == 0)

def daysInMonth (y m : Nat) : Nat :=
  if m == 2 then (if isLeapYear y then 29 else 28)
  else if m == 4 || m == 6 || m == 9 || m == 11 then 30
  else 31

def isValidDate (d : Date) : Bool :=
  decide (1 ≤ d.month) && decide (d.month ≤ 12)
    && decide (1 ≤ d.day) && decide (d.day ≤ daysInMonth d.year d.month)

def pad2 (n : Nat) : String :=
  if n < 10 then "0" ++ toString n else toString n

def pad4 (n : Nat) : String :=
  if n < 10 then "000" ++ toString n
  else if n < 100 then "00" ++ toString n
  else if n < 1000 then "0" ++ toString n
  else toString n

/-- `strftime('%Y-%m-%d')`. -/
def toIso (d : Date) : String :=
  pad4 d.year ++ "-" ++ pad2 d.month ++ "-" ++ pad2 d.day

/-- Split a character list on a separator character (the groups between
separators, like `str.split`). -/
def splitOnChar (sep : Char) : List Char → List (List Char)
  | [] => [[]]
  | c :: rest =>
    match splitOnChar sep rest with
    | [] => if c = sep then [[], []] else [[c]]
    | g :: gs => if c = sep then [] :: g :: gs else (c :: g) :: gs

/-- Decimal digits to a number, `none` on a non-digit. -/
def strToNatCore (cs : List Char) (acc : Nat) : Option Nat :=
  match cs with
  | [] => some acc
  | c :: rest =>
    if c.isDigit then strToNatCore rest (10 * acc + (c.toNat - 48)) else none

/-- A non-empty all-digit group's value. -/
def digitsToNat (cs : List Char) : Option Nat :=
  if cs.isEmpty then none else strToNatCore cs 0

/-- `datetime.strptime(s, '%Y-%m-%d')`: `none` models the `ValueError`
raised on a malformed string or an invalid calendar date. -/
def parseDate (s : String) : Option Date :=
  match splitOnChar ('-') s.data with
  | [ys, ms, ds] =>
    match digitsToNat ys, digitsToNat ms, digitsToNat ds with
    | some y, some m, some d =>
      if isValidDate ⟨y, m, d⟩ then some ⟨y, m, d⟩ else none
    | _, _, _ => none
  | _ => none

/-- `src/agents/market_data.py` lines 28-31: three months back, same day
of month; `datetime.replace` raises `ValueError` (here `none`) when that
day does not exist in the resulting month. -/
def subtractThreeMonths (d : Date) : Option Date :=
  let t := if d.month > 3 then { d with month := d.month - 3 }
           else { d with year := d.year - 1, month := d.month + 9 }
  if isValidDate t then some t else none

/-- A value of the state's `data` mapping.  Non-string `start_date` /
`end_date` / `ticker` values would flow into library calls whose behavior
is outside this model; the stage embedding rejects them explicitly. -/
inductive Val where
  | vNone : Val
  | vStr : String → Val
  | vNum : Rat → Val
  | vPrices : List PriceRec → Val
  | vMetrics : List MetricsRec → Val
  | vTrades : List TradeRec → Val
  | vItems : List ItemRec → Val
deriving DecidableEq

/-- Python truthiness of a `Val`. -/
def truthy : Val → Bool
  | Val.vNone => false
  | Val.vStr s => !s.isEmpty
  | Val.vNum q => decide (q ≠ 0)
  | Val.vPrices l => !l.isEmpty
  | Val.vMetrics l => !l.isEmpty
  | Val.vTrades l => !l.isEmpty
  | Val.vItems l => !l.isEmpty

/-- `src/agents/market_data.py` lines 24-33, run before the `try` block:
`end_date = data["end_date"] or today`; a falsy `start_date` is derived
as three months before `end_date`, else taken as is.  Errors here
(missing keys, unparsable or invalid dates) propagate without any
stage-level retry. -/
def mdDeriveDates (data : Dict Val) (today : String) : Except String (String × String) :=
  match getVal data ("end_date") with
  | none => Except.error ("KeyError: end_date")
  | some ev =>
    match (if truthy ev then ev else Val.vStr today) with
    | Val.vStr end_date =>
      match getVal data ("start_date") with
      | none => Except.error ("KeyError: start_date")
      | some sv =>
        if truthy sv then
          match sv with
          | Val.vStr s => Except.ok (s, end_date)
          | _ => Except.error ("TypeError: start_date is not a string")
        else
          match parseDate end_date with
          | none => Except.error ("ValueError: time data does not match format Y-m-d")
          | some d =>
            match subtractThreeMonths d with
            | none => Except.error ("ValueError: day is out of range for month")
            | some sdate => Except.ok (toIso sdate, end_date)
    | _ => Except.error ("TypeError: end_date is not a string")

/-- The five unified fetch operations as the market-data stage sees them:
each is abstracted by its outcome as a function of the arguments the
stage passes (ticker, dates, and the `data_source` value).  `today` is
the ambient `datetime.now()` date string. -/
structure MDEnv where
  today : String
  fetchPrices : String → String → String → Val → Except String (List PriceRec)
  fetchMetrics : String → String → Val → Except String (List MetricsRec)
  fetchTrades : String → String → Val → Except String (List TradeRec)
  fetchMarketCap : String → Val → Except String Rat
  fetchLineItems : String → Val → Except String (List ItemRec)

/-- `src/agents/market_data.py` lines 77-86: `updated_data` is `data`
spread first, then the seven fetched/derived keys (so existing keys are
overwritten, never removed). -/
def marketDataUpdatedData (data : Dict Val) (prices : List PriceRec)
    (start_date end_date : String) (financial_metrics : List MetricsRec)
    (insider_trades : List TradeRec) (market_cap : Rat)
    (financial_line_items : List ItemRec) : Dict Val :=
  merge_dicts data
    [("prices", Val.vPrices prices),
     ("start_date", Val.vStr start_date),
     ("end_date", Val.vStr end_date),
     ("financial_metrics", Val.vMetrics financial_metrics),
     ("insider_trades", Val.vTrades insider_trades),
     ("market_cap", Val.vNum market_cap),
     ("financial_line_items", Val.vItems financial_line_items)]

/-- `src/agents/market_data.py` lines 35-94, the `try` block: the five
fetches in source order (short-circuiting on the first failure), then
`updated_data`. -/
def mdTry (env : MDEnv) (data : Dict Val) (data_source : Val)
    (start_date end_date : String) : Except String (Dict Val) :=
  match getVal data ("ticker") with
  | none => Except.error ("KeyError: ticker")
  | some (Val.vStr ticker) => do
    let prices ← env.fetchPrices ticker start_date end_date data_source
    let financial_metrics ← env.fetchMetrics ticker end_date data_source
    let insider_trades ← env.fetchTrades ticker end_date data_source
    let market_cap ← env.fetchMarketCap ticker data_source
    let financial_line_items ← env.fetchLineItems ticker data_source
    pure (marketDataUpdatedData data prices start_date end_date
      financial_metrics insider_trades market_cap financial_line_items)
  | some _ => Except.error ("TypeError: ticker is not a string")

/-- What the stage returns on success. -/
structure MDRet where
  messages : List Message
  data : Dict Val
deriving DecidableEq

/-- One attempt of the stage body, split by where an exception escapes:
before the `try` block (`deriveFail`) or inside it (`tryFail`). -/
inductive MDOutcome where
  | done : MDRet → MDOutcome
  | deriveFail : String → MDOutcome
  | tryFail : String → MDOutcome
deriving DecidableEq

/-- `src/agents/market_data.py` line 22: `data.get("data_source", "yahoo")`. -/
def dsValOf (data : Dict Val) : Val :=
  (getVal data ("data_source")).getD (Val.vStr ("yahoo"))

/-- One full attempt of `market_data_agent`'s body. -/
def mdOnce (env : MDEnv) (messages : List Message) (data : Dict Val) : MDOutcome :=
  match mdDeriveDates data env.today with
  | Except.error e => MDOutcome.deriveFail e
  | Except.ok (start_date, end_date) =>
    match mdTry env data (dsValOf data) start_date end_date with
    | Except.ok newData => MDOutcome.done ⟨messages, newData⟩
    | Except.error e => MDOutcome.tryFail e

/-- `src/agents/market_data.py` lines 16-107 (`market_data_agent`): run
the body; on an exception from the `try` block, if the source in use is
"financialdatasets", set `data["data_source"] = "yahoo"` and re-run the
whole agent (which re-derives dates and re-issues all five fetches),
otherwise raise `Exception("Error in market_data_agent: ...")`.  The
recursion terminates because the retry forces `data_source` to
"yahoo". -/
def market_data_agent (env : MDEnv) (messages : List Message) (data : Dict Val) :
    Except String MDRet :=
  match mdOnce env messages data with
  | MDOutcome.done r => Except.ok r
  | MDOutcome.deriveFail e => Except.error e
  | MDOutcome.tryFail e =>
    if h : dsValOf data = Val.vStr ("financialdatasets") then
      market_data_agent env messages
        (merge_dicts data [("data_source", Val.vStr ("yahoo"))])
    else
      Except.error ("Error in market_data_agent: " ++ e)
termination_by (if dsValOf data = Val.vStr ("financialdatasets") then 1 else 0)
decreasing_by
  have key : ∀ (d : Dict Val),
      getVal (merge_dicts d [("data_source", Val.vStr ("yahoo"))]) ("data_source")
        = some (Val.vStr ("yahoo")) := by
    intro d
    induction d with
    | nil => simp [merge_dicts, updEntry, getVal, hasKey]
    | cons p rest ih =>
      obtain ⟨k1, v1⟩ := p
      by_cases hp : k1 = "data_source"
      · subst hp
        simp [merge_dicts, updEntry, getVal]
      · have hp' : ¬(("data_source" : String) = k1) := fun hh => hp hh.symm
        simp only [merge_dicts, List.map_cons, List.cons_append, updEntry, getVal,
          hasKey, List.filter, Option.isSome] at ih ⊢
        simpa [hp, hp'] using ih
  have hds : dsValOf (merge_dicts data [("data_source", Val.vStr ("yahoo"))])
      = Val.vStr ("yahoo") := by
    unfold dsValOf
    rw [key data]
    rfl
  simp [hds, h]

/-- The `data` delta the sentiment stage returns
(`src/agents/sentiment.py` lines 120-123): the `data` it received,
unchanged. -/
def sentimentAgentDataDelta (data : Dict Val) : Dict Val :=
  data

/-- The `data` delta the fundamentals stage returns
(`src/agents/fundamentals.py` lines 257-260): the `data` it received,
unchanged. -/
def fundamentalsAgentDataDelta (data : Dict Val) : Dict Val :=
  data

/-- Fixture: initial `data` selecting the secondary source. -/
def dataFD : Dict Val :=
  [("ticker", Val.vStr ("AAPL")),
   ("start_date", Val.vStr ("2023-10-15")),
   ("end_date", Val.vStr ("2024-01-15")),
   ("data_source", Val.vStr ("financialdatasets"))]

/-- Fixture: initial `data` with no `data_source` key (defaults to
yahoo). -/
def dataYah : Dict Val :=
  [("ticker", Val.vStr ("AAPL")),
   ("start_date", Val.vStr ("2023-10-15")),
   ("end_date", Val.vStr ("2024-01-15"))]

/-- Fixture: fetch outcomes where the price fetch fails exactly when the
`financialdatasets` source is used, everything else succeeds. -/
def envFD : MDEnv :=
  { today := "2026-10-12"
    fetchPrices := fun _ _ _ ds =>
      if ds = Val.vStr ("financialdatasets") then Except.error ("HTTP 500")
      else Except.ok []
    fetchMetrics := fun _ _ _ => Except.ok []
    fetchTrades := fun _ _ _ => Except.ok []
    fetchMarketCap := fun _ _ => Except.ok 0
    fetchLineItems := fun _ _ => Except.ok [] }

/-- Fixture: fetch outcomes where the price fetch always fails. -/
def envBad : MDEnv :=
  { today := "2026-10-12"
    fetchPrices := fun _ _ _ _ => Except.error ("HTTP 500")
    fetchMetrics := fun _ _ _ => Except.ok []
    fetchTrades := fun _ _ _ => Except.ok []
    fetchMarketCap := fun _ _ => Except.ok 0
    fetchLineItems := fun _ _ => Except.ok [] }

end HedgeFund

namespace HedgeFund

theorem getVal_append {V : Type} (x y : Dict V) (k : String) :
    getVal (x ++ y) k
      = match getVal x k with
        | some v => some v
        | none => getVal y k := by
  induction x with
  | nil => simp [getVal]
  | cons p rest ih =>
    obtain ⟨k1, v1⟩ := p
    by_cases h : k1 = k <;> simp [getVal, h, ih]

theorem updEntry_fst {V : Type} (b : Dict V) (p : String × V) :
    (updEntry b p).1 = p.1 := by
  unfold updEntry
  cases getVal b p.1 <;> simp

theorem getVal_map_upd {V : Type} (a b : Dict V) (k : String) :
    getVal (a.map (updEntry b)) k
      = (getVal a k).map (fun v => match getVal b k with
                                   | some w => w
                                   | none => v) := by
  induction a with
  | nil => simp [getVal]
  | cons p rest ih =>
    obtain ⟨k1, v1⟩ := p
    by_cases h : k1 = k
    · subst h
      cases hb : getVal b k1 <;> simp [getVal, updEntry, hb]
    · cases hb : getVal b k1 <;>
        simpa [getVal, updEntry, h, hb] using ih

theorem getVal_filter_not_hasKey {V : Type} (a b : Dict V) (k : String)
    (h : hasKey a k = false) :
    getVal (b.filter (fun p => !(hasKey a p.1))) k = getVal b k := by
  induction b with
  | nil => simp
  | cons p rest ih =>
    obtain ⟨k1, v1⟩ := p
    by_cases hk : k1 = k
    · subst hk
      simp [List.filter_cons, h, getVal]
    · cases hp : hasKey a k1 <;> simp [List.filter_cons, hp, getVal, hk, ih]

/-- The fundamental lookup equation for `merge_dicts`: `b` wins where it
has the key, otherwise `a`'s value survives. -/
theorem getVal_merge {V : Type} (a b : Dict V) (k : String) :
    getVal (merge_dicts a b) k
      = match getVal b k with
        | some v => some v
        | none => getVal a k := by
  unfold merge_dicts
  rw [getVal_append, getVal_map_upd]
  cases ha : getVal a k
  · have hk : hasKey a k = false := by simp [hasKey, ha]
    cases hb : getVal b k <;>
      simp [getVal_filter_not_hasKey a b k hk, hb]
  · cases hb : getVal b k <;> simp [hb]

theorem hasKey_merge {V : Type} (a b : Dict V) (k : String) :
    hasKey (merge_dicts a b) k = (hasKey a k || hasKey b k) := by
  simp only [hasKey, getVal_merge]
  cases getVal b k <;> cases getVal a k <;> simp

theorem updEntry_updEntry {V : Type} (b c : Dict V) (p : String × V) :
    updEntry c (updEntry b p) = updEntry (merge_dicts b c) p := by
  unfold updEntry
  rw [getVal_merge]
  rcases hb : getVal b p.1 with _ | v <;> simp only [hb] <;>
    rcases hc : getVal c p.1 with _ | w <;> simp [hc]

theorem merge_nil_left {V : Type} (a : Dict V) : merge_dicts [] a = a := by
  unfold merge_dicts
  simp [hasKey, getVal]

theorem merge_nil_right {V : Type} (a : Dict V) : merge_dicts a [] = a := by
  unfold merge_dicts
  have h : updEntry ([] : Dict V) = id := by
    funext p; unfold updEntry; simp [getVal]
  simp [h]

theorem merge_assoc {V : Type} (a b c : Dict V) :
    merge_dicts (merge_dicts a b) c = merge_dicts a (merge_dicts b c) := by
  have h1 : (merge_dicts a b).map (updEntry c)
      = a.map (updEntry (merge_dicts b c))
        ++ (b.filter (fun p => !(hasKey a p.1))).map (updEntry c) := by
    show (a.map (updEntry b)
          ++ b.filter (fun p => !(hasKey a p.1))).map (updEntry c) = _
    rw [List.map_append, List.map_map]
    refine congrArg₂ (fun x y => x ++ y) ?_ rfl
    exact List.map_congr_left (fun p _ => updEntry_updEntry b c p)
  have h2 : c.filter (fun p => !(hasKey (merge_dicts a b) p.1))
      = (c.filter (fun p => !(hasKey b p.1))).filter
          (fun p => !(hasKey a p.1)) := by
    rw [List.filter_filter]
    exact List.filter_congr (fun p _ => by
      simp [hasKey_merge, Bool.not_or, Bool.and_comm])
  have h3 : (b.filter (fun p => !(hasKey a p.1))).map (updEntry c)
      = (b.map (updEntry c)).filter (fun p => !(hasKey a p.1)) := by
    rw [List.filter_map]
    refine congrArg (List.map (updEntry c)) ?_
    exact List.filter_congr (fun p _ => by
      simp [Function.comp, updEntry_fst])
  show (merge_dicts a b).map (updEntry c)
        ++ c.filter (fun p => !(hasKey (merge_dicts a b) p.1))
      = a.map (updEntry (merge_dicts b c))
        ++ (merge_dicts b c).filter (fun p => !(hasKey a p.1))
  rw [h1, h2, h3, List.append_assoc]
  show _ = a.map (updEntry (merge_dicts b c))
        ++ (b.map (updEntry c)
            ++ c.filter (fun p => !(hasKey b p.1))).filter
              (fun p => !(hasKey a p.1))
  rw [List.filter_append]

theorem dsValOf_merge_yahoo (data : Dict Val) :
    dsValOf (merge_dicts data [("data_source", Val.vStr ("yahoo"))])
      = Val.vStr ("yahoo") := by
  unfold dsValOf
  rw [getVal_merge]
  simp [getVal]

/-- C1: merging the `data`/`metadata` mappings takes the union of the key
sets, `b`'s value wins on keys in both (`a`'s survives otherwise), the
operation is associative, and the empty mapping is a two-sided
identity. -/
theorem claim1_merge_semantics {V : Type} (a b c : Dict V) (k : String) (v : V) :
    hasKey (merge_dicts a b) k = (hasKey a k || hasKey b k)
    ∧ (getVal b k = some v → getVal (merge_dicts a b) k = some v)
    ∧ (getVal b k = none → getVal (merge_dicts a b) k = getVal a k)
    ∧ merge_dicts (merge_dicts a b) c = merge_dicts a (merge_dicts b c)
    ∧ merge_dicts [] a = a
    ∧ merge_dicts a [] = a := by
  refine ⟨hasKey_merge a b k, ?_, ?_, merge_assoc a b c,
    merge_nil_left a, merge_nil_right a⟩
  · intro hb
    rw [getVal_merge, hb]
  · intro hb
    rw [getVal_merge, hb]

/-- Witness for C1 at concrete mappings, including the spec's
`merge({"x":1}, {"x":2}) == {"x":2}` example. -/
theorem claim1_witness :
    getVal (merge_dicts [(("x"), 1)] [(("x"), 2)] : Dict Nat) ("x") = some 2
    ∧ merge_dicts [(("x"), 1)] [(("x"), 2)] = ([(("x"), 2)] : Dict Nat)
    ∧ getVal (merge_dicts [(("x"), 1)] [(("y"), 2)] : Dict Nat) ("x") = some 1 := by
  refine ⟨(claim1_merge_semantics [(("x"), 1)] [(("x"), 2)] [] ("x") 2).2.1 rfl,
    rfl,
    (claim1_merge_semantics [(("x"), 1)] [(("y"), 2)] [] ("x") 1).2.2.1 rfl⟩

/-- C7: merging the `messages` channels is concatenation — the left
sequence survives as the prefix and the right as the suffix, in order;
`merge([m1],[m2]) = [m1, m2]`, and the operation is not commutative. -/
theorem claim7_messages (a b : List Message) (m1 m2 : Message) :
    (mergeMessages a b).take a.length = a
    ∧ (mergeMessages a b).drop a.length = b
    ∧ mergeMessages [m1] [m2] = [m1, m2]
    ∧ (m1 ≠ m2 → mergeMessages [m1] [m2] ≠ mergeMessages [m2] [m1]) := by
  refine ⟨List.take_left a b, List.drop_left a b, rfl, ?_⟩
  intro hne heq
  simp only [mergeMessages, List.singleton_append] at heq
  injection heq with h1 h2
  exact hne h1

/-- Witness for C7 at two distinct concrete messages. -/
theorem claim7_witness :
    mergeMessages [⟨("fundamentals_agent"), ("f")⟩] [⟨("sentiment_agent"), ("s")⟩]
        = [⟨("fundamentals_agent"), ("f")⟩, ⟨("sentiment_agent"), ("s")⟩]
    ∧ mergeMessages [⟨("fundamentals_agent"), ("f")⟩] [⟨("sentiment_agent"), ("s")⟩]
        ≠ mergeMessages [⟨("sentiment_agent"), ("s")⟩] [⟨("fundamentals_agent"), ("f")⟩] := by
  have H := claim7_messages [⟨("fundamentals_agent"), ("f")⟩] [⟨("sentiment_agent"), ("s")⟩]
    ⟨("fundamentals_agent"), ("f")⟩ ⟨("sentiment_agent"), ("s")⟩
  exact ⟨H.2.2.1, H.2.2.2 (by decide)⟩

/-- C5: an empty insider-trades result is success, not failure: the
yahoo adapter returns `[]` for a `None` or empty upstream table, the
unified fetch passes an empty adapter result through with no diagnostic
and no fallback, and the sentiment stage on `[]` yields neutral with
confidence 0.5. -/
theorem claim5_optional_empty (limit : Nat) (fdRes : Except String (List TradeRec)) :
    get_insider_trades_yf none limit = []
    ∧ get_insider_trades_yf (some []) limit = []
    ∧ get_insider_trades (Except.ok []) fdRes ("yahoo") = ([], Except.ok [])
    ∧ sentiment_agent_signal [] = (Signal.neutral, 1/2) := by
  refine ⟨rfl, ?_, ?_, rfl⟩
  · simp [get_insider_trades_yf]
  · simp [get_insider_trades]

/-- C10: a trade whose `transaction_shares` is missing/None or exactly 0
contributes no sub-signal, and a list of only such trades produces the
same neutral/0.5 output as the empty list. -/
theorem claim10_falsy_shares (trades : List TradeRec)
    (h : ∀ t ∈ trades, t.transaction_shares = none ∨ t.transaction_shares = some 0) :
    sentimentSignals trades = []
    ∧ sentiment_agent_signal trades = (Signal.neutral, 1/2)
    ∧ sentiment_agent_signal [] = (Signal.neutral, 1/2) := by
  have hsig : sentimentSignals trades = [] := by
    rw [sentimentSignals, List.filterMap_eq_nil_iff]
    intro t ht
    rcases h t ht with hn | hn <;> simp [tradeSignal, hn]
  refine ⟨hsig, ?_, rfl⟩
  rw [sentiment_agent_signal, hsig]
  rfl

/-- Witness for C10: a non-empty list of one missing-shares and one
zero-shares trade behaves like the empty list. -/
theorem claim10_witness :
    sentimentSignals
        [⟨none, none, none, none⟩,
         ⟨some 0, some ("2024-01-02"), some ("A Insider"), some ("Sale")⟩] = []
    ∧ sentiment_agent_signal
        [⟨none, none, none, none⟩,
         ⟨some 0, some ("2024-01-02"), some ("A Insider"), some ("Sale")⟩]
        = (Signal.neutral, 1/2) := by
  have H := claim10_falsy_shares
    [⟨none, none, none, none⟩,
     ⟨some 0, some ("2024-01-02"), some ("A Insider"), some ("Sale")⟩]
    (by decide)
  exact ⟨H.1, H.2.1⟩

/-- C6: for any non-empty list of sub-signals, both scoring stages pick
the strict-majority label between bullish and bearish (ties giving
neutral), the confidence is the majority label's count over the total
and lies in [0,1], and the sentiment stage's combination agrees with the
fundamentals stage's. -/
theorem claim6_scoring (s : List Signal) (h : s ≠ []) :
    (s.count Signal.bullish > s.count Signal.bearish →
      (fundamentalsOverall s).1 = Signal.bullish)
    ∧ (s.count Signal.bearish > s.count Signal.bullish →
      (fundamentalsOverall s).1 = Signal.bearish)
    ∧ (s.count Signal.bullish = s.count Signal.bearish →
      (fundamentalsOverall s).1 = Signal.neutral)
    ∧ ((fundamentalsOverall s).1 = Signal.bullish →
      (fundamentalsOverall s).2 = (s.count Signal.bullish : Rat) / (s.length : Rat))
    ∧ ((fundamentalsOverall s).1 = Signal.bearish →
      (fundamentalsOverall s).2 = (s.count Signal.bearish : Rat) / (s.length : Rat))
    ∧ ((fundamentalsOverall s).1 = Signal.neutral →
      s.count Signal.bullish = s.count Signal.bearish
      ∧ (fundamentalsOverall s).2 = (s.count Signal.bullish : Rat) / (s.length : Rat))
    ∧ 0 ≤ (fundamentalsOverall s).2
    ∧ (fundamentalsOverall s).2 ≤ 1
    ∧ sentimentOverall s = fundamentalsOverall s := by
  have hn : 0 < s.length := List.length_pos.mpr h
  have hcb : s.count Signal.bullish ≤ s.length := List.count_le_length _ _
  have hcr : s.count Signal.bearish ≤ s.length := List.count_le_length _ _
  have hfst : (fundamentalsOverall s).1
      = (if s.count Signal.bullish > s.count Signal.bearish then Signal.bullish
         else if s.count Signal.bearish > s.count Signal.bullish then Signal.bearish
         else Signal.neutral) := rfl
  have hsnd : (fundamentalsOverall s).2
      = ((max (s.count Signal.bullish) (s.count Signal.bearish) : Nat) : Rat)
          / (s.length : Rat) := rfl
  refine ⟨?_, ?_, ?_, ?_, ?_, ?_, ?_, ?_, ?_⟩
  · intro hlt
    rw [hfst, if_pos hlt]
  · intro hlt
    rw [hfst, if_neg (by omega), if_pos hlt]
  · intro heq
    rw [hfst, if_neg (by omega), if_neg (by omega)]
  · intro hb
    rw [hfst] at hb
    by_cases h1 : s.count Signal.bullish > s.count Signal.bearish
    · rw [hsnd]
      congr 1
      exact_mod_cast Nat.max_eq_left (Nat.le_of_lt h1)
    · rw [if_neg h1] at hb
      by_cases h2 : s.count Signal.bearish > s.count Signal.bullish
      · rw [if_pos h2] at hb
        exact absurd hb (by simp)
      · rw [if_neg h2] at hb
        exact absurd hb (by simp)
  · intro hb
    rw [hfst] at hb
    by_cases h1 : s.count Signal.bullish > s.count Signal.bearish
    · rw [if_pos h1] at hb
      exact absurd hb (by simp)
    · by_cases h2 : s.count Signal.bearish > s.count Signal.bullish
      · rw [hsnd]
        congr 1
        exact_mod_cast Nat.max_eq_right (Nat.le_of_lt h2)
      · rw [if_neg h1, if_neg h2] at hb
        exact absurd hb (by simp)
  · intro hb
    rw [hfst] at hb
    by_cases h1 : s.count Signal.bullish > s.count Signal.bearish
    · rw [if_pos h1] at hb
      exact absurd hb (by simp)
    · by_cases h2 : s.count Signal.bearish > s.count Signal.bullish
      · rw [if_neg h1, if_pos h2] at hb
        exact absurd hb (by simp)
      · have heq : s.count Signal.bullish = s.count Signal.bearish := by omega
        refine ⟨heq, ?_⟩
        rw [hsnd, heq, max_self]
  · rw [hsnd]
    exact div_nonneg (Nat.cast_nonneg _) (Nat.cast_nonneg _)
  · rw [hsnd, div_le_one (by exact_mod_cast hn)]
    exact_mod_cast max_le hcb hcr
  · have hne : s.isEmpty = false := by
      cases s with
      | nil => exact absurd rfl h
      | cons x xs => rfl
    simp only [sentimentOverall, fundamentalsOverall, hne, Bool.false_eq_true,
      if_false, hn, if_pos]

/-- Witness for C6 at the spec's end-to-end example: one bullish and one
bearish sub-signal tie to neutral with confidence 0.5. -/
theorem claim6_witness :
    (fundamentalsOverall [Signal.bullish, Signal.bearish]).1 = Signal.neutral
    ∧ (fundamentalsOverall [Signal.bullish, Signal.bearish]).2 = 1/2
    ∧ sentimentOverall [Signal.bullish, Signal.bearish]
        = fundamentalsOverall [Signal.bullish, Signal.bearish] := by
  have H := claim6_scoring [Signal.bullish, Signal.bearish] (by decide)
  have h1 := H.2.2.1 (by decide)
  have h2 := (H.2.2.2.2.2.1 h1).2
  refine ⟨h1, ?_, H.2.2.2.2.2.2.2.2⟩
  rw [h2]
  simp [List.count_cons]

/-- Counterexample to C2 as stated: with the primary source ("yahoo")
selected and its adapter failing, `get_insider_trades` returns a
*successful* empty list instead of propagating the failure. -/
theorem claim2_counterexample :
    get_insider_trades (Except.error ("boom")) (Except.ok []) ("yahoo")
        = ([], Except.ok [])
    ∧ (get_insider_trades (Except.error ("boom")) (Except.ok []) ("yahoo")).2
        ≠ Except.error ("boom") := by
  constructor
  · simp [get_insider_trades]
  · simp [get_insider_trades]

/-- C2 as amended: for all five unified fetches, a failure on the
secondary source prints exactly one diagnostic naming the failure and
retries the primary adapter exactly once; a failure on the primary
source propagates for `get_prices`, `get_financial_metrics` and
`get_market_cap`, while `get_insider_trades` returns `[]` and
`search_line_items` returns the default `[{"free_cash_flow": 0}]`
instead. -/
theorem claim2_amended (e : String)
    (yfP fdP : Except String (List PriceRec))
    (yfM fdM : Except String (List MetricsRec))
    (yfT fdT : Except String (List TradeRec))
    (yfC fdC : Except String Rat)
    (yfL fdL : Except String (List ItemRec)) :
    get_prices yfP (Except.error e) ("financialdatasets") = ([fdFallbackDiag e], yfP)
    ∧ get_financial_metrics yfM (Except.error e) ("financialdatasets") = ([fdFallbackDiag e], yfM)
    ∧ get_insider_trades yfT (Except.error e) ("financialdatasets") = ([fdFallbackDiag e], yfT)
    ∧ get_market_cap yfC (Except.error e) ("financialdatasets") = ([fdFallbackDiag e], yfC)
    ∧ search_line_items yfL (Except.error e) ("financialdatasets") = ([fdFallbackDiag e], yfL)
    ∧ get_prices (Except.error e) fdP ("yahoo") = ([], Except.error e)
    ∧ get_financial_metrics (Except.error e) fdM ("yahoo") = ([], Except.error e)
    ∧ get_market_cap (Except.error e) fdC ("yahoo") = ([], Except.error e)
    ∧ get_insider_trades (Except.error e) fdT ("yahoo") = ([], Except.ok [])
    ∧ search_line_items (Except.error e) fdL ("yahoo")
        = ([], Except.ok [[("free_cash_flow", 0)]]) := by
  refine ⟨?_, ?_, ?_, ?_, ?_, ?_, ?_, ?_, ?_, ?_⟩ <;>
    simp [get_prices, get_financial_metrics, get_insider_trades,
      get_market_cap, search_line_items]

/-- Counterexample to C4 as stated: an HTTP-200 response whose payload
is missing is returned to the caller as a successful empty result
(`[]` for prices, `0.0` for market cap) and triggers no fallback and no
diagnostic. -/
theorem claim4_counterexample :
    get_prices_fd ⟨200, (""), none⟩ = Except.ok []
    ∧ get_prices (Except.error ("yahoo down")) (get_prices_fd ⟨200, (""), none⟩)
        ("financialdatasets") = ([], Except.ok [])
    ∧ get_market_cap_fd ⟨200, (""), none⟩ = Except.ok 0 := by
  refine ⟨rfl, ?_, rfl⟩
  simp [get_prices, get_prices_fd]

/-- C4 as amended: the Financial Datasets adapters treat only a non-200
status as failure; with status 200 an absent/empty payload is returned
as a successful empty (or zero) result. -/
theorem claim4_amended (rp : PricesResp) (rf : FactsResp) :
    (rp.status = 200 → get_prices_fd rp = Except.ok (rp.prices.getD []))
    ∧ (rp.status ≠ 200 → get_prices_fd rp
        = Except.error ("Error fetching data: " ++ toString rp.status ++ " - " ++ rp.text))
    ∧ (rf.status = 200 → get_market_cap_fd rf
        = Except.ok (((rf.company_facts.getD ⟨none⟩).market_cap).getD 0))
    ∧ (rf.status ≠ 200 → get_market_cap_fd rf
        = Except.error ("Error fetching data: " ++ toString rf.status ++ " - " ++ rf.text)) := by
  refine ⟨?_, ?_, ?_, ?_⟩ <;> intro h <;> simp [get_prices_fd, get_market_cap_fd, h]

/-- Witness for C4's amended statement at concrete responses. -/
theorem claim4_witness :
    get_prices_fd ⟨200, ("ok"), none⟩ = Except.ok []
    ∧ get_prices_fd ⟨500, ("err"), none⟩
        = Except.error ("Error fetching data: " ++ toString (500 : Nat) ++ " - " ++ ("err"))
    ∧ get_market_cap_fd ⟨200, ("ok"), none⟩ = Except.ok 0
    ∧ get_market_cap_fd ⟨404, ("missing"), none⟩
        = Except.error ("Error fetching data: " ++ toString (404 : Nat) ++ " - " ++ ("missing")) := by
  refine ⟨(claim4_amended ⟨200, ("ok"), none⟩ ⟨200, ("ok"), none⟩).1 rfl,
    (claim4_amended ⟨500, ("err"), none⟩ ⟨200, ("ok"), none⟩).2.1 (by decide),
    (claim4_amended ⟨200, ("ok"), none⟩ ⟨200, ("ok"), none⟩).2.2.1 rfl,
    (claim4_amended ⟨200, ("ok"), none⟩ ⟨404, ("missing"), none⟩).2.2.2 (by decide)⟩

/-- Counterexample to C3 as stated: for end_date "2024-05-31" (month 5 >
3, so the claimed start date would be the nonexistent 2024-02-31) the
stage's date derivation raises `ValueError` instead of computing any
start_date. -/
theorem claim3_counterexample :
    mdDeriveDates
        [(("ticker"), Val.vStr ("AAPL")), (("start_date"), Val.vNone),
         (("end_date"), Val.vStr ("2024-05-31"))] ("2026-10-12")
      = Except.error ("ValueError: day is out of range for month") := by
  rfl

/-- C3 as amended: when start_date is falsy and end_date is a valid date
string, the derived start_date keeps the day of month and moves the
month back three (month − 3 if month > 3, else year − 1 and month + 9),
*provided* that day exists in the resulting month; otherwise the
derivation raises. -/
theorem claim3_amended (data : Dict Val) (today s : String) (sv : Val) (d t : Date)
    (hend : getVal data ("end_date") = some (Val.vStr s))
    (hs : s.isEmpty = false)
    (hstart : getVal data ("start_date") = some sv)
    (hfalsy : truthy sv = false)
    (hparse : parseDate s = some d)
    (hsub : subtractThreeMonths d = some t) :
    mdDeriveDates data today = Except.ok (toIso t, s)
    ∧ (3 < d.month → t = ⟨d.year, d.month - 3, d.day⟩)
    ∧ (¬ 3 < d.month → t = ⟨d.year - 1, d.month + 9, d.day⟩) := by
  refine ⟨?_, ?_⟩
  · have htr : truthy (Val.vStr s) = true := by simp [truthy, hs]
    simp [mdDeriveDates, hend, htr, hstart, hfalsy, hparse, hsub]
  · simp only [subtractThreeMonths] at hsub
    by_cases hm : d.month > 3
    · rw [if_pos hm] at hsub
      refine ⟨fun _ => ?_, fun hc => absurd hm hc⟩
      split at hsub
      · injection hsub with h'
        exact h'.symm
      · exact absurd hsub (by simp)
    · rw [if_neg hm] at hsub
      refine ⟨fun hc => absurd hc hm, fun _ => ?_⟩
      split at hsub
      · injection hsub with h'
        exact h'.symm
      · exact absurd hsub (by simp)

/-- Witness for C3's amended statement at the spec's two examples. -/
theorem claim3_witness :
    mdDeriveDates
        [(("ticker"), Val.vStr ("AAPL")), (("start_date"), Val.vNone),
         (("end_date"), Val.vStr ("2024-01-15"))] ("2026-10-12")
      = Except.ok (("2023-10-15"), ("2024-01-15"))
    ∧ mdDeriveDates
        [(("ticker"), Val.vStr ("AAPL")), (("start_date"), Val.vNone),
         (("end_date"), Val.vStr ("2024-02-10"))] ("2026-10-12")
      = Except.ok (("2023-11-10"), ("2024-02-10")) := by
  constructor
  · exact (claim3_amended
      [(("ticker"), Val.vStr ("AAPL")), (("start_date"), Val.vNone),
       (("end_date"), Val.vStr ("2024-01-15"))]
      ("2026-10-12") ("2024-01-15") Val.vNone
      ⟨2024, 1, 15⟩ ⟨2023, 10, 15⟩ rfl rfl rfl rfl rfl rfl).1
  · exact (claim3_amended
      [(("ticker"), Val.vStr ("AAPL")), (("start_date"), Val.vNone),
       (("end_date"), Val.vStr ("2024-02-10"))]
      ("2026-10-12") ("2024-02-10") Val.vNone
      ⟨2024, 2, 10⟩ ⟨2023, 11, 10⟩ rfl rfl rfl rfl rfl rfl).1

/-- C8: when the stage runs with the secondary source selected and its
`try` block fails, the whole body (date derivation plus all five
fetches) is re-run exactly once with `data_source` forced to "yahoo" —
a second failure is raised, not retried again; when the stage is already
on "yahoo", a `try`-block failure raises immediately with no retry. -/
theorem claim8_stage_retry (env : MDEnv) (messages : List Message)
    (data : Dict Val) (e : String) :
    (dsValOf data = Val.vStr ("financialdatasets") →
      mdOnce env messages data = MDOutcome.tryFail e →
      market_data_agent env messages data
        = (match mdOnce env messages
              (merge_dicts data [("data_source", Val.vStr ("yahoo"))]) with
           | MDOutcome.done r => Except.ok r
           | MDOutcome.deriveFail e2 => Except.error e2
           | MDOutcome.tryFail e2 =>
             Except.error ("Error in market_data_agent: " ++ e2)))
    ∧ (dsValOf data = Val.vStr ("yahoo") →
      mdOnce env messages data = MDOutcome.tryFail e →
      market_data_agent env messages data
        = Except.error ("Error in market_data_agent: " ++ e)) := by
  constructor
  · intro h1 h2
    rw [market_data_agent, h2]
    dsimp only
    rw [dif_pos h1]
    rw [market_data_agent]
    have hds := dsValOf_merge_yahoo data
    cases hm : mdOnce env messages
        (merge_dicts data [("data_source", Val.vStr ("yahoo"))]) with
    | done r => rfl
    | deriveFail e2 => rfl
    | tryFail e2 =>
      dsimp only
      rw [dif_neg (by rw [hds]; simp)]
  · intro h1 h2
    rw [market_data_agent, h2]
    dsimp only
    rw [dif_neg (by rw [h1]; simp)]

/-- Witness for C8: with the secondary source selected and its price
fetch failing, the stage succeeds via the forced-yahoo retry; with the
primary source in use and a failing fetch, the stage raises. -/
theorem claim8_witness :
    market_data_agent envFD [] dataFD
      = Except.ok ⟨[], marketDataUpdatedData
          (merge_dicts dataFD [("data_source", Val.vStr ("yahoo"))])
          [] ("2023-10-15") ("2024-01-15") [] [] 0 []⟩
    ∧ market_data_agent envBad [] dataYah
      = Except.error ("Error in market_data_agent: " ++ ("HTTP 500")) := by
  constructor
  · have H := (claim8_stage_retry envFD [] dataFD ("HTTP 500")).1 rfl rfl
    rw [H]
    rfl
  · exact (claim8_stage_retry envBad [] dataYah ("HTTP 500")).2 rfl rfl

/-- C9: every key of the input `data` is still present after merging in
the delta each stage returns — the market-data stage's `updated_data`,
and the unchanged `data` the sentiment and fundamentals stages
return. -/
theorem claim9_keys_preserved (data : Dict Val) (k : String)
    (prices : List PriceRec) (sd ed : String) (fm : List MetricsRec)
    (it : List TradeRec) (mc : Rat) (fli : List ItemRec)
    (h : hasKey data k = true) :
    hasKey (merge_dicts data
      (marketDataUpdatedData data prices sd ed fm it mc fli)) k = true
    ∧ hasKey (merge_dicts data (sentimentAgentDataDelta data)) k = true
    ∧ hasKey (merge_dicts data (fundamentalsAgentDataDelta data)) k = true := by
  refine ⟨?_, ?_, ?_⟩ <;> simp [hasKey_merge, h]

/-- Witness for C9 at a concrete state and key. -/
theorem claim9_witness :
    hasKey (merge_dicts dataYah
      (marketDataUpdatedData dataYah [] ("2023-10-15") ("2024-01-15") [] [] 0 []))
      ("ticker") = true
    ∧ hasKey (merge_dicts dataYah (sentimentAgentDataDelta dataYah)) ("ticker") = true
    ∧ hasKey (merge_dicts dataYah (fundamentalsAgentDataDelta dataYah)) ("ticker") = true :=
  claim9_keys_preserved dataYah ("ticker") [] ("2023-10-15") ("2024-01-15")
    [] [] 0 [] rfl

end HedgeFund
